import Mathlib

/-!
Shallow embedding of the node-mongodb-s3-backup sources:
the backup pipeline module (getArchiveName, removeRF, mongoDump,
friendlyFilesize, compressDirectory, sendToS3, sync) and the CLI
scheduler (cron expression resolution in bin/mongodb_s3_backup.js).
JavaScript-specific semantics (truthiness, 32-bit shifts, toFixed,
String.split, util.format %d) are embedded explicitly where the source
relies on them.
-/

namespace MongodbS3Backup

/-- Truthiness of an optional JavaScript string value: `undefined` and the
empty string are falsy, every other string is truthy. Used for config
fields such as `options.username`, `config.cron.crontab`. -/
def jsTruthy : Option String → Bool
  | none => false
  | some s => s ≠ ""

/-- JavaScript `1 << k`: the shift count of the 32-bit shift operator is
taken modulo 32, so `1<<40` evaluates to `2^8 = 256`, not `2^40`. All
shift uses in the source are on the literal 1 with counts whose result is
a positive int32, so a Nat model is exact. -/
def jsShl1 (k : Nat) : Nat := 2 ^ (k % 32)

/-- Model of JavaScript `(num/den).toFixed(1)` for a nonnegative rational
`num/den`: per ECMAScript, the result shows the integer n minimizing
the distance of `n / 10` to the value, ties resolved to the larger n,
rendered with exactly one decimal digit. The source only applies this
where the double division is exact at the inputs the theorems evaluate. -/
def toFixed1 (num den : Nat) : String :=
  let n := (20 * num + den) / (2 * den)
  toString (n / 10) ++ "." ++ toString (n % 10)

/-- Embedding of `friendlyFilesize` (part_000 lines 109-124): renders a
byte count with one decimal place; branch thresholds are the JavaScript
values of `1<<10`, `1<<20`, `1<<30`, `1<<40`, and `!bytes` is `bytes = 0`
for a nonnegative count. -/
def friendlyFilesize (bytes : Nat) : String :=
  if bytes = 0 then
    "0 B"
  else if bytes < jsShl1 10 then
    toString bytes ++ " B"
  else if bytes < jsShl1 20 then
    toFixed1 bytes (jsShl1 10) ++ " KiB"
  else if bytes < jsShl1 30 then
    toFixed1 bytes (jsShl1 20) ++ " MiB"
  else if bytes < jsShl1 40 then
    toFixed1 bytes (jsShl1 30) ++ " GiB"
  else
    toFixed1 bytes (jsShl1 40) ++ " TiB"

/-- Components of the JavaScript `Date` the source reads in
`getArchiveName`: `getFullYear()`, zero-based `getMonth()`, day-of-month
`getDate()`, and epoch milliseconds `getTime()`. -/
structure JsDate where
  fullYear : Nat
  month : Nat
  date : Nat
  time : Nat
deriving DecidableEq

/-- Embedding of `getArchiveName` (part_000 lines 17-30): joins the
database name, year, 1-based month, day of month and the epoch
millisecond timestamp with underscores and appends `.tar.gz`. -/
def getArchiveName (databaseName : String) (d : JsDate) : String :=
  String.intercalate "_"
    [databaseName, toString d.fullYear, toString (d.month + 1),
     toString d.date, toString d.time] ++ ".tar.gz"

/-- Model of `path.join(a, b)` for the segment shapes the source joins:
plain segments without trailing separators, so the join is `a/b`. -/
def pathJoin (a b : String) : String := a ++ "/" ++ b

/-- Temp root used by `sync` (part_000 line 229): `os.tmpDir()` joined
with the fixed application directory name. -/
def syncTmpDir (osTmp : String) : String := pathJoin osTmp "mongodb_s3_backup"

/-- Per-database dump subdirectory used by `sync` (part_000 line 230). -/
def syncBackupDir (osTmp db : String) : String := pathJoin (syncTmpDir osTmp) db

/-- Archive file path targeted by the pre-clean and post-clean steps of
`sync` (part_000 lines 238 and 243): the temp root joined with the
archive name computed at the start of that run. -/
def syncArchivePath (osTmp db : String) (d : JsDate) : String :=
  pathJoin (syncTmpDir osTmp) (getArchiveName db d)

/-- MongoDB connection options consumed by `mongoDump` (part_000 line 56):
host, port, database name, optional username and password. Absent config
fields are `none`. -/
structure MongoConfig where
  host : String
  port : String
  db : String
  username : Option String
  password : Option String
deriving DecidableEq

/-- Argument list `mongoOptions` as first built by `mongoDump`
(part_000 lines 66-70), before the conditional credential pushes. -/
def mongoDumpBaseArgs (o : MongoConfig) (directory : String) : List String :=
  ["-h", o.host ++ ":" ++ o.port, "-d", o.db, "-o", directory]

/-- Full argument list passed to the `mongodump` spawn (part_000 lines
66-81): the base options, with `-u username -p password` pushed exactly
when both `options.username` and `options.password` are truthy. -/
def mongoDumpArgs (o : MongoConfig) (directory : String) : List String :=
  mongoDumpBaseArgs o directory ++
    (if jsTruthy o.username && jsTruthy o.password then
      ["-u", o.username.getD "", "-p", o.password.getD ""]
    else [])

/-- Exit handler of `mongoDump` (part_000 lines 91-98): exit code 0 calls
back with no error, any other code calls back with the error message
carrying the code. `none` is success, `some e` is `callback(new Error(e))`. -/
def mongoDumpOnExit (code : Int) : Option String :=
  if code = 0 then none
  else some ("Mongodump exited with code " ++ toString code)

/-- Exit handler of `compressDirectory` (part_000 lines 155-165).
`statSize` is the result of `fs.stat` on the produced archive: `some s`
when the stat succeeded with size `s`, `none` when it errored, in which
case the source uses size 0. Returns the callback outcome (`none` for
success) paired with the info line logged on success. -/
def compressOnExit (code : Int) (statSize : Option Nat) :
    Option String × Option String :=
  if code = 0 then
    (none,
     some ("Successfully compressed directory ("
           ++ friendlyFilesize (statSize.getD 0) ++ ")"))
  else
    (some ("Tar exited with code " ++ toString code), none)

/-- Outcome of the `putFile` call inside `sendToS3`: either the transport
errored before any response, or a response arrived whose body was drained
to its end with the given HTTP status code. -/
inductive PutFileOutcome where
  | transportError (msg : String)
  | response (statusCode : Nat)
deriving DecidableEq

/-- Callback result of `sendToS3` (part_000 lines 193-215): a transport
error is passed through immediately; otherwise, at stream end, a non-200
status yields the error message carrying the status and a 200 status
yields success (`none`). -/
def sendToS3Result : PutFileOutcome → Option String
  | .transportError msg => some msg
  | .response statusCode =>
      if statusCode ≠ 200 then
        some ("Expected a 200 response from S3, got " ++ toString statusCode)
      else
        none

/-- Shell command string built by `removeRF` (part_000 line 47): the
target path is concatenated, unquoted, after the fixed command text. -/
def removeRFCommand (target : String) : String := "rm -rf " ++ target

/-- Behaviour of `removeRF` (part_000 lines 39-49) with respect to the
existence check: when the target does not exist the callback is invoked
with no error and no command runs; when it exists, `exec` runs the
concatenated command string through the shell. Returns the command
handed to the shell, if any. -/
def removeRFAction (target : String) (targetExists : Bool) : Option String :=
  if targetExists then some (removeRFCommand target) else none

/-- Splitting of a character list at a separator, keeping empty fields:
the structural model of JavaScript `String.prototype.split` with a
single-character separator. `splitCharAux sep acc l` processes `l` with
the reversed current field in `acc`. -/
def splitCharAux (sep : Char) (acc : List Char) : List Char → List (List Char)
  | [] => [acc.reverse]
  | c :: cs =>
      if c = sep then acc.reverse :: splitCharAux sep [] cs
      else splitCharAux sep (c :: acc) cs

/-- JavaScript `s.split(sep)` for a one-character separator, as used on
the `hh:mm` time string (bin line 50). -/
def jsSplit (sep : Char) (s : String) : List String :=
  (splitCharAux sep [] s.data).map String.mk

/-- Modelled from POSIX sh semantics: `exec` runs its command string
through the shell, which field-splits the command on unquoted blanks, so
runs of spaces separate words and contribute no empty words. Restricted
to the space character; quoting and other metacharacters are not needed
for the inputs the theorems evaluate. -/
def shellWords (s : String) : List String :=
  ((splitCharAux ' ' [] s.data).map String.mk).filter (fun w => w ≠ "")

/-- Number coercion performed by `util.format` for a `%d` directive (bin
line 51) on an optional argument: a missing argument renders as `NaN`,
a string renders as its decimal value, the empty string as 0, and a
string with a non-digit as `NaN`. Negative, fractional and whitespace
forms do not occur in the inputs the source feeds it. -/
def jsFormatD (arg : Option String) : String :=
  match arg with
  | none => "NaN"
  | some s =>
      match s.data.foldl
        (fun acc c =>
          match acc with
          | none => none
          | some n => if c.isDigit then some (n * 10 + (c.toNat - 48)) else none)
        (some 0) with
      | some n => toString n
      | none => "NaN"

/-- Cron expression derived from a configured daily time (bin lines
50-51): the time string is split on the colon and the two parts are
formatted by `util.format` with the pattern `%d %d * * *`, the first
split part landing in the first cron field and the second part in the
second cron field. -/
def crontabOfTime (t : String) : String :=
  let time := jsSplit ':' t
  jsFormatD time[0]? ++ " " ++ jsFormatD time[1]? ++ " * * *"

/-- Cron configuration block of the config file (bin lines 46-65):
optional crontab expression, optional daily time string, optional
timezone. -/
structure CronConfig where
  crontab : Option String
  time : Option String
  timezone : Option String
deriving DecidableEq

/-- Effective cron expression resolved by the scheduler (bin lines 12 and
44-52): the default `0 0 * * *`, overridden by a truthy
`config.cron.crontab`, else by the expression derived from a truthy
`config.cron.time`. -/
def resolveCrontab (cron : Option CronConfig) : String :=
  match cron with
  | none => "0 0 * * *"
  | some c =>
      if jsTruthy c.crontab then c.crontab.getD ""
      else if jsTruthy c.time then crontabOfTime (c.time.getD "")
      else "0 0 * * *"

/-- Modelled from the spec: the cron collaborator (the external `cron`
library) interprets a five-field expression as minute, hour, day of
month, month, day of week, the reading under which the default
expression `0 0 * * *` fires once daily at midnight. This reads the
minute field of an expression. -/
def cronMinuteField (e : String) : Option String := (jsSplit ' ' e)[0]?

/-- Modelled from the spec: the hour field, the second of the five
space-separated cron fields. -/
def cronHourField (e : String) : Option String := (jsSplit ' ' e)[1]?

/-- The seven tasks `sync` hands to `async.series` (part_000 lines
236-243), in source order. -/
inductive SyncStep where
  | precleanDir
  | precleanArchive
  | dump
  | compress
  | upload
  | postcleanDir
  | postcleanArchive
deriving DecidableEq

/-- Outcome each of the seven tasks of `sync` would report to its
callback if invoked: `none` for success, `some e` for an error. The
steps are external effects (removal commands, subprocesses, an upload),
so a run of `sync` is parametrised by these outcomes. -/
structure SyncOutcomes where
  precleanDir : Option String
  precleanArchive : Option String
  dump : Option String
  compress : Option String
  upload : Option String
  postcleanDir : Option String
  postcleanArchive : Option String
deriving DecidableEq

/-- Task list of `sync` (part_000 lines 236-243) paired with the outcome
each task would produce. -/
def syncTaskList (o : SyncOutcomes) : List (SyncStep × Option String) :=
  [(.precleanDir, o.precleanDir),
   (.precleanArchive, o.precleanArchive),
   (.dump, o.dump),
   (.compress, o.compress),
   (.upload, o.upload),
   (.postcleanDir, o.postcleanDir),
   (.postcleanArchive, o.postcleanArchive)]

/-- Semantics of `async.series` as documented by the async library and
relied on by `sync`: the tasks run strictly in order, each starting only
after the previous one called back without error; the first task that
calls back with an error stops the sequence and its error is passed to
the single final callback, which otherwise receives no error. Returns
the list of tasks that were invoked and the final callback argument. -/
def seriesExec : List (SyncStep × Option String) → List SyncStep × Option String
  | [] => ([], none)
  | (s, r) :: rest =>
      match r with
      | some e => ([s], some e)
      | none =>
          let res := seriesExec rest
          (s :: res.1, res.2)

/-- One run of `sync` (part_000 lines 228-252) under the given task
outcomes: the invoked steps and the error handed to the terminal
callback (part_000 line 250). -/
def syncRun (o : SyncOutcomes) : List SyncStep × Option String :=
  seriesExec (syncTaskList o)

/-- Source order of the seven steps of `sync`. -/
def syncOrder : List SyncStep :=
  [.precleanDir, .precleanArchive, .dump, .compress, .upload,
   .postcleanDir, .postcleanArchive]

/-- First error in a list of task outcomes. -/
def firstSome : List (Option String) → Option String
  | [] => none
  | none :: rest => firstSome rest
  | some e :: _ => some e

lemma seriesExec_fst_take (l : List (SyncStep × Option String)) :
    ∃ n, (seriesExec l).1 = (l.map Prod.fst).take n := by
  induction l with
  | nil => exact ⟨0, rfl⟩
  | cons p rest ih =>
      obtain ⟨s, r⟩ := p
      cases r with
      | some e => exact ⟨1, by simp [seriesExec]⟩
      | none =>
          obtain ⟨n, hn⟩ := ih
          exact ⟨n + 1, by simp [seriesExec, hn]⟩

lemma seriesExec_snd (l : List (SyncStep × Option String)) :
    (seriesExec l).2 = firstSome (l.map Prod.snd) := by
  induction l with
  | nil => rfl
  | cons p rest ih =>
      obtain ⟨s, r⟩ := p
      cases r with
      | some e => rfl
      | none => simpa [seriesExec, firstSome] using ih

/-- C2: in every run of sync the seven steps execute strictly in source
order (the invoked steps form an initial segment of the source order),
the single terminal callback receives exactly the first error among the
executed steps (or success when none fails), and in particular a failing
dump step prevents the compression and upload steps from ever being
invoked. -/
theorem sync_first_failure_aborts (o : SyncOutcomes) :
    (∃ n, (syncRun o).1 = syncOrder.take n)
  ∧ (syncRun o).2 = firstSome ((syncTaskList o).map Prod.snd)
  ∧ (o.precleanDir = none → o.precleanArchive = none → o.dump ≠ none →
      SyncStep.dump ∈ (syncRun o).1 ∧ SyncStep.compress ∉ (syncRun o).1 ∧
        SyncStep.upload ∉ (syncRun o).1) := by
  refine ⟨seriesExec_fst_take (syncTaskList o), seriesExec_snd (syncTaskList o), ?_⟩
  obtain ⟨a, b, c, d, e, f, g⟩ := o
  intro h1 h2 h3
  simp only at h1 h2 h3
  subst h1
  subst h2
  cases c with
  | none => exact absurd rfl h3
  | some err => simp [syncRun, syncTaskList, seriesExec]

/-- C2 witness: at a run whose dump step fails, the dump step is invoked
but compression and upload are not. -/
theorem sync_first_failure_aborts_witness :
    SyncStep.dump ∈
      (syncRun ⟨none, none, some "Mongodump exited with code 1",
        none, none, none, none⟩).1
  ∧ SyncStep.compress ∉
      (syncRun ⟨none, none, some "Mongodump exited with code 1",
        none, none, none, none⟩).1
  ∧ SyncStep.upload ∉
      (syncRun ⟨none, none, some "Mongodump exited with code 1",
        none, none, none, none⟩).1 :=
  (sync_first_failure_aborts
    ⟨none, none, some "Mongodump exited with code 1",
      none, none, none, none⟩).2.2 rfl rfl (by simp)

/-- C1 counterexample: the claim that both post-clean removals are
executed if and only if the upload step succeeded fails on the run in
which the upload succeeds but the first post-clean removal errors: the
series aborts and the archive post-clean is never invoked. -/
theorem sync_postclean_iff_upload_counterexample :
    ¬ ((SyncStep.postcleanDir ∈
          (syncRun ⟨none, none, none, none, none, some "rm error", none⟩).1
        ∧ SyncStep.postcleanArchive ∈
          (syncRun ⟨none, none, none, none, none, some "rm error", none⟩).1)
       ↔ (SyncStep.upload ∈
            (syncRun ⟨none, none, none, none, none, some "rm error", none⟩).1
          ∧ (⟨none, none, none, none, none, some "rm error", none⟩
              : SyncOutcomes).upload = none)) := by
  decide

/-- C1 amended: the dump-subdirectory post-clean is executed if and only
if the upload step ran and succeeded; the archive post-clean is executed
if and only if the upload succeeded and the dump-subdirectory post-clean
itself succeeded; in particular a failure of dump, compression or upload
means neither post-clean removal executes, so both local artifacts
remain in place. -/
theorem sync_postclean_on_upload_success (o : SyncOutcomes) :
    (SyncStep.postcleanDir ∈ (syncRun o).1 ↔
      (SyncStep.upload ∈ (syncRun o).1 ∧ o.upload = none))
  ∧ (SyncStep.postcleanArchive ∈ (syncRun o).1 ↔
      (SyncStep.upload ∈ (syncRun o).1 ∧ o.upload = none ∧
        o.postcleanDir = none))
  ∧ ((o.dump ≠ none ∨ o.compress ≠ none ∨ o.upload ≠ none) →
      SyncStep.postcleanDir ∉ (syncRun o).1 ∧
        SyncStep.postcleanArchive ∉ (syncRun o).1) := by
  obtain ⟨a, b, c, d, e, f, g⟩ := o
  cases a <;> cases b <;> cases c <;> cases d <;> cases e <;> cases f <;>
    cases g <;> simp [syncRun, syncTaskList, seriesExec]

/-- C1 amended witness: at a run whose compression step fails, neither
post-clean removal is executed. -/
theorem sync_postclean_on_upload_success_witness :
    SyncStep.postcleanDir ∉
      (syncRun ⟨none, none, none, some "Tar exited with code 2",
        none, none, none⟩).1
  ∧ SyncStep.postcleanArchive ∉
      (syncRun ⟨none, none, none, some "Tar exited with code 2",
        none, none, none⟩).1 :=
  (sync_postclean_on_upload_success
    ⟨none, none, none, some "Tar exited with code 2",
      none, none, none⟩).2.2 (Or.inr (Or.inl (by simp)))

/-- C3: the archive name, and with it the archive path that the
pre-clean step of a run targets, contains the epoch-millisecond
timestamp of the run that computes it, so the pre-clean of a second run
started one millisecond later targets a different path than the archive
retained by the earlier failed run, which therefore is not removed; the
per-database dump subdirectory path, by contrast, is identical across
runs. -/
theorem sync_preclean_misses_stale_archive :
    syncArchivePath "/tmp" "test" ⟨2026, 9, 12, 1000⟩ =
      "/tmp/mongodb_s3_backup/test_2026_10_12_1000.tar.gz"
  ∧ syncArchivePath "/tmp" "test" ⟨2026, 9, 12, 1001⟩ =
      "/tmp/mongodb_s3_backup/test_2026_10_12_1001.tar.gz"
  ∧ syncArchivePath "/tmp" "test" ⟨2026, 9, 12, 1000⟩ ≠
      syncArchivePath "/tmp" "test" ⟨2026, 9, 12, 1001⟩
  ∧ syncBackupDir "/tmp" "test" = "/tmp/mongodb_s3_backup/test" :=
  ⟨rfl, rfl, by decide, rfl⟩

/-- C4: the quoted examples hold and the 2^10 and 2^20 boundaries behave
as claimed, but the claimed GiB and TiB boundaries fail: JavaScript
evaluates the shift `1<<40` to 256, so every byte count at or above 2^30
falls through to the TiB branch with divisor 256; at the boundary input
2^30 the function renders "4194304.0 TiB" instead of the claimed
"1.0 GiB". -/
theorem friendlyFilesize_boundary_bug :
    friendlyFilesize 0 = "0 B"
  ∧ friendlyFilesize 1023 = "1023 B"
  ∧ friendlyFilesize 1536 = "1.5 KiB"
  ∧ friendlyFilesize (2 ^ 10 - 1) = "1023 B"
  ∧ friendlyFilesize (2 ^ 10) = "1.0 KiB"
  ∧ friendlyFilesize (2 ^ 20 - 1) = "1024.0 KiB"
  ∧ friendlyFilesize (2 ^ 20) = "1.0 MiB"
  ∧ jsShl1 40 = 256
  ∧ friendlyFilesize (2 ^ 30) = "4194304.0 TiB"
  ∧ friendlyFilesize (2 ^ 30) ≠ "1.0 GiB" := by
  decide

/-- C5: resolving a configuration that supplies the daily time "14:30"
and no crontab yields the expression "14 30 * * *", which puts the hour
14 in the cron minute field and the minute 30 in the cron hour field:
the derived expression does not fire daily at 14:30. -/
theorem resolveCrontab_swaps_hour_minute :
    resolveCrontab (some ⟨none, some "14:30", none⟩) = "14 30 * * *"
  ∧ cronMinuteField "14 30 * * *" = some "14"
  ∧ cronHourField "14 30 * * *" = some "30"
  ∧ cronHourField "14 30 * * *" ≠ some "14" := by
  decide

/-- C6: precedence of the effective cron expression: a truthy crontab
string wins; otherwise a truthy daily time yields the expression derived
from it; otherwise, as when the cron block is absent altogether, the
built-in default applies. -/
theorem resolveCrontab_precedence (c : CronConfig) :
    (jsTruthy c.crontab = true → resolveCrontab (some c) = c.crontab.getD "")
  ∧ (jsTruthy c.crontab = false → jsTruthy c.time = true →
      resolveCrontab (some c) = crontabOfTime (c.time.getD ""))
  ∧ (jsTruthy c.crontab = false → jsTruthy c.time = false →
      resolveCrontab (some c) = "0 0 * * *")
  ∧ resolveCrontab none = "0 0 * * *" := by
  refine ⟨fun h1 => ?_, fun h1 h2 => ?_, fun h1 h2 => ?_, rfl⟩ <;>
    simp [resolveCrontab, h1]
  · simp [h2]
  · simp [h2]

/-- C6 witness: with both a crontab string and a daily time configured,
the crontab string is the resolved expression. -/
theorem resolveCrontab_precedence_witness :
    resolveCrontab (some ⟨some "30 14 * * *", some "14:30", none⟩) =
      "30 14 * * *" :=
  (resolveCrontab_precedence ⟨some "30 14 * * *", some "14:30", none⟩).1
    (by decide)

/-- C7: the argument list handed to the mongodump subprocess carries the
credential flags exactly when both the username and the password are
truthy, in which case the suffix after the six base arguments is
`-u username -p password`; with at most one of the two set, the argument
list is exactly the base list, with no credential flags. -/
theorem mongoDump_credential_flags (o : MongoConfig) (dir : String) :
    ((mongoDumpArgs o dir).drop 6 ≠ [] ↔
      (jsTruthy o.username = true ∧ jsTruthy o.password = true))
  ∧ (jsTruthy o.username = true → jsTruthy o.password = true →
      (mongoDumpArgs o dir).drop 6 =
        ["-u", o.username.getD "", "-p", o.password.getD ""])
  ∧ (¬ (jsTruthy o.username = true ∧ jsTruthy o.password = true) →
      mongoDumpArgs o dir = mongoDumpBaseArgs o dir) := by
  cases h1 : jsTruthy o.username <;> cases h2 : jsTruthy o.password <;>
    simp [mongoDumpArgs, mongoDumpBaseArgs, h1, h2]

/-- C7 witness: a spec with only a username yields exactly the base
argument list. -/
theorem mongoDump_credential_flags_witness :
    mongoDumpArgs ⟨"localhost", "27017", "db", some "user", none⟩ "/tmp/d" =
      mongoDumpBaseArgs ⟨"localhost", "27017", "db", some "user", none⟩
        "/tmp/d" :=
  (mongoDump_credential_flags
    ⟨"localhost", "27017", "db", some "user", none⟩ "/tmp/d").2.2
    (by decide)

/-- C8: the uploader reports success exactly on a drained response with
status 200; any other status yields at stream end the failure carrying
that status code, and a transport failure before any response is passed
through as an immediate failure. -/
theorem sendToS3_success_iff_200 (out : PutFileOutcome) :
    (sendToS3Result out = none ↔ out = .response 200)
  ∧ (∀ c, c ≠ 200 → sendToS3Result (.response c) =
      some ("Expected a 200 response from S3, got " ++ toString c))
  ∧ (∀ msg, sendToS3Result (.transportError msg) = some msg) := by
  refine ⟨?_, fun c hc => ?_, fun msg => rfl⟩
  · cases out with
    | transportError msg => simp [sendToS3Result]
    | response c => by_cases h : c = 200 <;> simp [sendToS3Result, h]
  · simp [sendToS3Result, hc]

/-- C8 witness: a drained response with status 403 yields the failure
carrying the status code. -/
theorem sendToS3_success_iff_200_witness :
    sendToS3Result (.response 403) =
      some ("Expected a 200 response from S3, got " ++ toString 403) :=
  (sendToS3_success_iff_200 (.response 403)).2.1 403 (by decide)

/-- C9: a compression subprocess exit of 0 reports success to the
callback whatever the result of statting the archive was, a failed stat
only making the logged message use size 0; a nonzero exit reports the
failure carrying the exit code. -/
theorem compress_exit_handling (code : Int) (statSize : Option Nat) :
    ((compressOnExit code statSize).1 = none ↔ code = 0)
  ∧ (code = 0 → (compressOnExit code statSize).2 =
      some ("Successfully compressed directory ("
            ++ friendlyFilesize (statSize.getD 0) ++ ")"))
  ∧ (code ≠ 0 → (compressOnExit code statSize).1 =
      some ("Tar exited with code " ++ toString code)) := by
  by_cases h : code = 0 <;> simp [compressOnExit, h]

/-- C9 witness: a zero exit with a failed stat still reports success,
logging the size as 0 bytes. -/
theorem compress_exit_handling_witness :
    (compressOnExit 0 none).1 = none
  ∧ (compressOnExit 0 none).2 =
      some "Successfully compressed directory (0 B)" := by
  have h := compress_exit_handling 0 none
  refine ⟨h.1.mpr rfl, ?_⟩
  rw [h.2.1 rfl]
  rfl

/-- C10 counterexample: for the target path "/tmp/a b" the command
handed to the shell is "rm -rf /tmp/a b", which the shell field-splits
into the two deletion arguments "/tmp/a" and "b" rather than the single
path "/tmp/a b". -/
theorem removeRF_spaced_path_counterexample :
    removeRFAction "/tmp/a b" true = some "rm -rf /tmp/a b"
  ∧ shellWords (removeRFCommand "/tmp/a b") = ["rm", "-rf", "/tmp/a", "b"]
  ∧ (shellWords (removeRFCommand "/tmp/a b")).drop 2 ≠ ["/tmp/a b"] := by
  decide

lemma splitCharAux_no_sep (sep : Char) (l acc : List Char) (h : sep ∉ l) :
    splitCharAux sep acc l = [acc.reverse ++ l] := by
  induction l generalizing acc with
  | nil => simp [splitCharAux]
  | cons c cs ih =>
      have hc : c ≠ sep := fun he => h (he ▸ List.mem_cons_self c cs)
      have hcs : sep ∉ cs := fun hm => h (List.mem_cons_of_mem _ hm)
      simp [splitCharAux, hc, ih _ hcs]

/-- C10 amended: removeRF interpolates the target unquoted into the
shell command line, so a nonempty target free of spaces and shell
metacharacters still reaches the deletion command as the one argument it
names, while a target containing a space is split into several deletion
arguments. -/
theorem removeRF_single_argument (t : String) (hne : t.data ≠ [])
    (hsp : ' ' ∉ t.data) :
    shellWords (removeRFCommand t) = ["rm", "-rf", t] := by
  obtain ⟨l⟩ := t
  simp only [String.data] at hne hsp
  have h2 : splitCharAux ' ' [] ("rm -rf " ++ String.mk l).data =
      ['r', 'm'] :: ['-', 'r', 'f'] :: splitCharAux ' ' [] l := rfl
  unfold shellWords removeRFCommand
  rw [h2, splitCharAux_no_sep ' ' l [] hsp]
  simp [hne]
  exact fun he => hne (congrArg String.data he)

/-- C10 amended witness: the space-free path "/tmp/x" reaches the
deletion command as a single argument. -/
theorem removeRF_single_argument_witness :
    shellWords (removeRFCommand "/tmp/x") = ["rm", "-rf", "/tmp/x"] :=
  removeRF_single_argument "/tmp/x" (by decide) (by decide)

end MongodbS3Backup
